import Mathlib

/-!
Shallow embedding of `mara_pipelines/config.py`.

The module is a set of zero-argument configuration accessors plus one
memoized accessor, `event_handlers`, decorated with
`functools.lru_cache(maxsize=None)`.  We model:

* the process-observable environment (`World`: current working directory and
  CPU count) that the accessor bodies read;
* each accessor as a state-passing function `World → α × World`, faithful to
  its body (all bodies are pure reads, so every accessor returns the world
  unchanged);
* the body of `event_handlers` (`event_handlers_body`), including the Python
  truthiness test `if slack_token():`;
* a fallible variant (`event_handlers_bodyE`) where the `Slack` constructor
  may raise, to reason about error propagation;
* the `lru_cache` wrapper on a zero-argument function as a cache cell
  (`Option α`) threaded through calls (`lruCall`, `lruRun`), counting how
  many times the wrapped body actually runs and recording that `lru_cache`
  stores nothing when the body raises;
* rebinding of the module attribute `config.event_handlers` by an embedding
  application (`resolve_event_handlers`).
-/

/-- The process-observable environment read by the default accessor bodies:
the current working directory (read by `pathlib.Path('data').absolute()`)
and the CPU count (read by `multiprocessing.cpu_count()`). -/
structure World where
  cwd : String
  cpuCount : Nat
deriving DecidableEq, Repr

/-- Modelled from the spec: `pipelines.Pipeline` (module `pipelines` is not
part of this file); the spec treats the root pipeline as an opaque handle
returned by a single override point. -/
inductive Pipeline where
  | demo
deriving DecidableEq, Repr

/-- Modelled from the spec: `pipelines.demo_pipeline()` (module `pipelines`
is not part of this file); per the spec the root-pipeline provider is an
opaque, side-effect-free handle producer. -/
def demo_pipeline (w : World) : Pipeline × World := (Pipeline.demo, w)

/-- `datetime.date`: a calendar date. The defaults below only use valid
constant dates, so no range validation is modelled. -/
structure Date where
  year : Nat
  month : Nat
  day : Nat
deriving DecidableEq, Repr

/-- Calendar order on dates (lexicographic year, month, day), as Boolean
comparison so it can be evaluated. -/
def Date.leB (a b : Date) : Bool :=
  Nat.blt a.year b.year ||
    (a.year == b.year &&
      (Nat.blt a.month b.month ||
        (a.month == b.month && Nat.ble a.day b.day)))

/-- `pathlib.Path(rel).absolute()` under a fixed current working directory:
join the cwd with the relative path. -/
def pathAbsolute (cwd rel : String) : String := cwd ++ "/" ++ rel

/-- `root_pipeline()`: returns `pipelines.demo_pipeline()`. -/
def root_pipeline (w : World) : Pipeline × World := demo_pipeline w

/-- `data_dir()`: `str(pathlib.Path('data').absolute())`. -/
def data_dir (w : World) : String × World := (pathAbsolute w.cwd "data", w)

/-- `default_db_alias()`: the constant string `'dwh-etl'`. -/
def default_db_alias (w : World) : String × World := ("dwh-etl", w)

/-- `default_task_max_retries()`: the constant `0`. -/
def default_task_max_retries (w : World) : Nat × World := (0, w)

/-- `first_date()`: `datetime.date(2000, 1, 1)`. -/
def first_date (w : World) : Date × World := (⟨2000, 1, 1⟩, w)

/-- `last_date()`: `datetime.date(3000, 1, 1)`. -/
def last_date (w : World) : Date × World := (⟨3000, 1, 1⟩, w)

/-- `max_number_of_parallel_tasks()`: `multiprocessing.cpu_count()`. -/
def max_number_of_parallel_tasks (w : World) : Nat × World := (w.cpuCount, w)

/-- `bash_command_string()`: the constant command string. -/
def bash_command_string (w : World) : String × World :=
  ("/usr/bin/env bash -o pipefail", w)

/-- `system_statistics_collection_period()`: the constant `1`. -/
def system_statistics_collection_period (w : World) : Nat × World := (1, w)

/-- `run_log_retention_in_days()`: the constant `30`. -/
def run_log_retention_in_days (w : World) : Nat × World := (30, w)

/-- `allow_run_from_web_ui()`: the constant `True`. -/
def allow_run_from_web_ui (w : World) : Bool × World := (true, w)

/-- `base_url()`: the constant URL string. -/
def base_url (w : World) : String × World :=
  ("http://127.0.0.1:5000/pipelines", w)

/-- `slack_token()`: the default returns `None`. -/
def slack_token (w : World) : Option String × World := (none, w)

/-- `password_masks()`: the constant empty list. -/
def password_masks (w : World) : List String × World := ([], w)

/-- `allowed_execution_origins()`: the default returns `None`
(the header is not sent). -/
def allowed_execution_origins (w : World) : Option String × World := (none, w)

/-- `execution_host_url()`: the default returns `None` (run locally). -/
def execution_host_url (w : World) : Option String × World := (none, w)

/-- An event handler. `slack` is the handler built by the deprecation shim;
`stub` stands for an arbitrary opaque handler supplied by an embedding
application through an override. -/
inductive EventHandler where
  | slack (token : String)
  | stub (id : Nat)
deriving DecidableEq, Repr

/-- Modelled from the spec: `mara_pipelines.notification.slack.Slack(token)`
(module `notification.slack` is not part of this file); per the spec it
constructs exactly one event handler bound to the given token, performing
no network or I/O. -/
def Slack (token : String) : EventHandler := EventHandler.slack token

/-- Python truthiness of an `Optional[str]` value: `None` and the empty
string are falsy, every other string is truthy.  This is the test performed
by `if slack_token():`. -/
def pyTruthy : Option String → Bool
  | none => false
  | some s => s != ""

/-- The body of `event_handlers()` as a function of the current value of
`slack_token()` (the body calls `slack_token()` twice; `slack_token` is a
pure read, so both calls return the same value `tok`):
`if slack_token(): return [Slack(slack_token())] else: return []`.
In the truthy branch `tok` is known to be a non-empty `some` string, which
`Slack` receives; `Option.getD` extracts it. -/
def event_handlers_body (tok : Option String) : List EventHandler :=
  if pyTruthy tok then [Slack (tok.getD "")] else []

/-- An opaque Python exception value. -/
structure PyError where
  msg : String
deriving DecidableEq, Repr

/-- The body of `event_handlers()` with a possibly-raising `Slack`
constructor: the body does not catch exceptions, so a constructor failure
is the body's result. -/
def event_handlers_bodyE (tok : Option String)
    (slackCtor : String → Except PyError EventHandler) :
    Except PyError (List EventHandler) :=
  if pyTruthy tok then
    match slackCtor (tok.getD "") with
    | Except.ok h => Except.ok [h]
    | Except.error e => Except.error e
  else Except.ok []

/-- One call through `functools.lru_cache(maxsize=None)` on a zero-argument
function.  The cache cell holds at most one value.  On a hit the body does
not run and the cached value is returned.  On a miss the body runs: a
normal result is stored and returned; a raised exception propagates and
nothing is stored.  The third component records whether the body ran. -/
def lruCall {α : Type} (cache : Option α)
    (body : Unit → Except PyError α) :
    Except PyError α × Option α × Bool :=
  match cache with
  | some v => (Except.ok v, some v, false)
  | none =>
    match body () with
    | Except.ok v => (Except.ok v, some v, true)
    | Except.error e => (Except.error e, none, true)

/-- A sequence of calls through the same `lru_cache` cell.  Each call may
have a different body (the wrapped function reads `slack_token()`, whose
value could change between calls).  Returns the per-call results, the final
cache cell, and how many times a body actually ran. -/
def lruRun {α : Type} (cache : Option α) :
    List (Unit → Except PyError α) →
      List (Except PyError α) × Option α × Nat
  | [] => ([], cache, 0)
  | b :: bs =>
    match lruCall cache b with
    | (r, c, ran) =>
      match lruRun c bs with
      | (rs, c2, n) => (r :: rs, c2, (if ran then 1 else 0) + n)

/-- Module-attribute lookup of `config.event_handlers`: an embedding
application may rebind the module attribute
(`mara_pipelines.config.event_handlers = lambda: [...]`), in which case a
call invokes the replacement; otherwise the default body (the deprecation
shim over `slack_token()`) runs. -/
def resolve_event_handlers
    (override : Option (Unit → List EventHandler))
    (tok : Option String) : List EventHandler :=
  match override with
  | some f => f ()
  | none => event_handlers_body tok

/-- Once the cache cell is filled, every further call returns the cached
value and never runs a body, whatever the bodies would compute. -/
theorem lruRun_hit {α : Type} (v : α)
    (bs : List (Unit → Except PyError α)) :
    lruRun (some v) bs = (bs.map (fun _ => Except.ok v), some v, 0) := by
  induction bs with
  | nil => rfl
  | cons b bs ih => simp [lruRun, lruCall, ih]

/-- Mapping a constant function over a mapped list ignores the inner map. -/
theorem map_const_map {α β γ : Type} (c : γ) (f : α → β) (l : List α) :
    (l.map f).map (fun _ => c) = l.map (fun _ => c) := by
  induction l with
  | nil => rfl
  | cons x xs ih => simp_all

/-- C1: calling the lru-cached `event_handlers` N times (N = 1 + length of
the tail) returns the first call's value on every call, caches exactly that
value, and runs the body exactly once — even when `slack_token()` would
return a different value on the later calls (each call's body is built from
its own token value). -/
theorem event_handlers_memoized (tok : Option String)
    (toks : List (Option String)) :
    lruRun none
        ((tok :: toks).map
          (fun t => fun _ => Except.ok (event_handlers_body t))) =
      ((tok :: toks).map (fun _ => Except.ok (event_handlers_body tok)),
        some (event_handlers_body tok), 1) := by
  simp only [lruRun, lruCall, lruRun_hit, List.map_cons]
  rw [map_const_map]
  simp

/-- C2 counterexample: `slack_token()` returning the present-but-empty
string is a non-absent token, yet `event_handlers()` returns the empty
list, not a one-element list bound to that token. -/
theorem event_handlers_fallback_cex :
    event_handlers_body (some "") = [] ∧
    event_handlers_body (some "") ≠ [Slack ""] := by
  constructor
  · rfl
  · decide

/-- C2 (amended): with no override, a present and non-empty token `t` makes
`event_handlers()` return exactly one handler bound to `t`; with
`slack_token()` returning no value it returns the empty list. -/
theorem event_handlers_fallback (t : String) (ht : t ≠ "") :
    event_handlers_body (some t) = [Slack t] ∧
    event_handlers_body none = [] := by
  refine ⟨?_, rfl⟩
  simp [event_handlers_body, pyTruthy, ht]

/-- Witness for `event_handlers_fallback` at the token "T". -/
theorem event_handlers_fallback_witness :
    ("T" : String) ≠ "" ∧
      (event_handlers_body (some "T") = [Slack "T"] ∧
        event_handlers_body none = []) :=
  ⟨by decide, event_handlers_fallback "T" (by decide)⟩

/-- C3: an explicit rebinding of `config.event_handlers` returning
`[H1, H2]` wins even when `slack_token()` returns a present, non-empty
token: the call returns `[H1, H2]` and the shim is not applied. -/
theorem event_handlers_override_precedence
    (H1 H2 : EventHandler) (t : String) (_ht : t ≠ "") :
    resolve_event_handlers (some (fun _ => [H1, H2])) (some t) =
      [H1, H2] := rfl

/-- Witness for `event_handlers_override_precedence` at two stub handlers
and the token "T". -/
theorem event_handlers_override_precedence_witness :
    ("T" : String) ≠ "" ∧
      resolve_event_handlers
          (some (fun _ => [EventHandler.stub 1, EventHandler.stub 2]))
          (some "T") =
        [EventHandler.stub 1, EventHandler.stub 2] :=
  ⟨by decide,
    event_handlers_override_precedence
      (EventHandler.stub 1) (EventHandler.stub 2) "T" (by decide)⟩

/-- C5: a failure of the `Slack` constructor on the first call of the
lru-cached `event_handlers` propagates unmasked to that caller (the body
did run, the error is the call's result, nothing is cached), and the body
itself raises nothing when construction succeeds: with an infallible
constructor the body's result is always a normal value. -/
theorem event_handlers_fail_fast (t : String) (ht : t ≠ "")
    (e : PyError) :
    lruCall (none : Option (List EventHandler))
        (fun _ => event_handlers_bodyE (some t)
          (fun _ => Except.error e)) =
      (Except.error e, none, true) ∧
    ∀ tok : Option String,
      event_handlers_bodyE tok (fun s => Except.ok (Slack s)) =
        Except.ok (event_handlers_body tok) := by
  constructor
  · simp [lruCall, event_handlers_bodyE, pyTruthy, ht]
  · intro tok
    unfold event_handlers_bodyE event_handlers_body
    cases h : pyTruthy tok <;> simp [h]

/-- Witness for `event_handlers_fail_fast` at the token "T" and a concrete
exception. -/
theorem event_handlers_fail_fast_witness :
    ("T" : String) ≠ "" ∧
      (lruCall (none : Option (List EventHandler))
          (fun _ => event_handlers_bodyE (some "T")
            (fun _ => Except.error ⟨"boom"⟩)) =
        (Except.error ⟨"boom"⟩, none, true) ∧
      ∀ tok : Option String,
        event_handlers_bodyE tok (fun s => Except.ok (Slack s)) =
          Except.ok (event_handlers_body tok)) :=
  ⟨by decide, event_handlers_fail_fast "T" (by decide) ⟨"boom"⟩⟩

/-- C6: every default accessor is deterministic and side-effect-free: each
call leaves the world unchanged, and a second call in the resulting world
returns the same value as the first.  All accessors are total functions
returning plain values, so none raises. -/
theorem default_accessors_pure (w : World) :
    (root_pipeline w).2 = w ∧
      (root_pipeline (root_pipeline w).2).1 = (root_pipeline w).1 ∧
    (data_dir w).2 = w ∧
      (data_dir (data_dir w).2).1 = (data_dir w).1 ∧
    (default_db_alias w).2 = w ∧
      (default_db_alias (default_db_alias w).2).1 =
        (default_db_alias w).1 ∧
    (default_task_max_retries w).2 = w ∧
      (default_task_max_retries (default_task_max_retries w).2).1 =
        (default_task_max_retries w).1 ∧
    (first_date w).2 = w ∧
      (first_date (first_date w).2).1 = (first_date w).1 ∧
    (last_date w).2 = w ∧
      (last_date (last_date w).2).1 = (last_date w).1 ∧
    (max_number_of_parallel_tasks w).2 = w ∧
      (max_number_of_parallel_tasks
          (max_number_of_parallel_tasks w).2).1 =
        (max_number_of_parallel_tasks w).1 ∧
    (bash_command_string w).2 = w ∧
      (bash_command_string (bash_command_string w).2).1 =
        (bash_command_string w).1 ∧
    (system_statistics_collection_period w).2 = w ∧
      (system_statistics_collection_period
          (system_statistics_collection_period w).2).1 =
        (system_statistics_collection_period w).1 ∧
    (run_log_retention_in_days w).2 = w ∧
      (run_log_retention_in_days (run_log_retention_in_days w).2).1 =
        (run_log_retention_in_days w).1 ∧
    (allow_run_from_web_ui w).2 = w ∧
      (allow_run_from_web_ui (allow_run_from_web_ui w).2).1 =
        (allow_run_from_web_ui w).1 ∧
    (base_url w).2 = w ∧
      (base_url (base_url w).2).1 = (base_url w).1 ∧
    (slack_token w).2 = w ∧
      (slack_token (slack_token w).2).1 = (slack_token w).1 ∧
    (password_masks w).2 = w ∧
      (password_masks (password_masks w).2).1 = (password_masks w).1 ∧
    (allowed_execution_origins w).2 = w ∧
      (allowed_execution_origins (allowed_execution_origins w).2).1 =
        (allowed_execution_origins w).1 ∧
    (execution_host_url w).2 = w ∧
      (execution_host_url (execution_host_url w).2).1 =
        (execution_host_url w).1 :=
  ⟨rfl, rfl, rfl, rfl, rfl, rfl, rfl, rfl, rfl, rfl, rfl, rfl, rfl, rfl,
    rfl, rfl, rfl, rfl, rfl, rfl, rfl, rfl, rfl, rfl, rfl, rfl, rfl, rfl,
    rfl, rfl, rfl, rfl⟩

/-- C7: the default `max_number_of_parallel_tasks()` returns the host's
CPU count, and is at least 1 when the host has at least one processing
unit. -/
theorem max_parallel_tasks_cpu_count (w : World)
    (h : 1 ≤ w.cpuCount) :
    (max_number_of_parallel_tasks w).1 = w.cpuCount ∧
      1 ≤ (max_number_of_parallel_tasks w).1 := ⟨rfl, h⟩

/-- Witness for `max_parallel_tasks_cpu_count` at a 4-CPU host. -/
theorem max_parallel_tasks_cpu_count_witness :
    1 ≤ (World.mk "/work" 4).cpuCount ∧
      ((max_number_of_parallel_tasks (World.mk "/work" 4)).1 =
          (World.mk "/work" 4).cpuCount ∧
        1 ≤ (max_number_of_parallel_tasks (World.mk "/work" 4)).1) :=
  ⟨by decide, max_parallel_tasks_cpu_count (World.mk "/work" 4) (by decide)⟩

/-- C8: the default `first_date()` is 2000-01-01, the default `last_date()`
is 3000-01-01, and the first is at most the last. -/
theorem first_date_le_last_date (w : World) :
    (first_date w).1 = ⟨2000, 1, 1⟩ ∧
      (last_date w).1 = ⟨3000, 1, 1⟩ ∧
      Date.leB (first_date w).1 (last_date w).1 = true :=
  ⟨rfl, rfl, rfl⟩

/-- C9: the shim's test is truthiness, not presence: a present-but-empty
token yields the empty handler list (no handler bound to ""), while a
present non-empty token yields exactly the one handler bound to it. -/
theorem event_handlers_truthiness (t : String) (ht : t ≠ "") :
    event_handlers_body (some "") = [] ∧
      pyTruthy (some "") = false ∧
      event_handlers_body (some t) = [Slack t] := by
  refine ⟨rfl, rfl, ?_⟩
  simp [event_handlers_body, pyTruthy, ht]

/-- Witness for `event_handlers_truthiness` at the token "x". -/
theorem event_handlers_truthiness_witness :
    ("x" : String) ≠ "" ∧
      (event_handlers_body (some "") = [] ∧
        pyTruthy (some "") = false ∧
        event_handlers_body (some "x") = [Slack "x"]) :=
  ⟨by decide, event_handlers_truthiness "x" (by decide)⟩

/-- C10: `lru_cache` stores nothing when the body raises: a first call
whose `Slack` construction fails returns the error and leaves the cell
empty, so a second call runs the body again (two body executions), and when
construction now succeeds the result is returned and cached. -/
theorem event_handlers_no_cache_on_error (t : String) (ht : t ≠ "")
    (e : PyError) (h : EventHandler) :
    lruRun (none : Option (List EventHandler))
        [fun _ => event_handlers_bodyE (some t) (fun _ => Except.error e),
         fun _ => event_handlers_bodyE (some t) (fun _ => Except.ok h)] =
      ([Except.error e, Except.ok [h]], some [h], 2) := by
  simp [lruRun, lruCall, event_handlers_bodyE, pyTruthy, ht]

/-- Witness for `event_handlers_no_cache_on_error` at the token "T", a
concrete exception and a concrete handler. -/
theorem event_handlers_no_cache_on_error_witness :
    ("T" : String) ≠ "" ∧
      lruRun (none : Option (List EventHandler))
          [fun _ => event_handlers_bodyE (some "T")
            (fun _ => Except.error ⟨"boom"⟩),
           fun _ => event_handlers_bodyE (some "T")
            (fun _ => Except.ok (EventHandler.slack "T"))] =
        ([Except.error ⟨"boom"⟩, Except.ok [EventHandler.slack "T"]],
          some [EventHandler.slack "T"], 2) :=
  ⟨by decide,
    event_handlers_no_cache_on_error "T" (by decide) ⟨"boom"⟩
      (EventHandler.slack "T")⟩
